import Mathlib

/-!
Shallow embedding of the mongo-taskqueue task lifecycle
(`src/mongotq/task_queue.py` and `src/mongotq/anomalies.py`).

A MongoDB collection is modelled as a `List TaskDoc`; each MongoDB
query filter becomes a `Bool`-valued predicate on `TaskDoc`, each update
document becomes a function `TaskDoc → TaskDoc`, and each collection
operation (`find_one_and_update`, `find_one_and_delete`, `update_many`,
`delete_many`) becomes a function on the list.  Timestamps are integers
(the code stores `datetime.now().timestamp()` floats; only ordering
matters here).  A stored `null` is `Option.none`; MongoDB's
type-bracketed comparison means `{'$lt': number}` does not match a
`null` field, which the embedding reflects by sending `none` to
`false` in `expiryFilter`.

The four status constants of `mongotq.task` are modelled as an
inductive type: the queue code only ever compares them for equality.
-/

namespace MongoTQ

/-- The status constants `STATUS_NEW`, `STATUS_PENDING`,
`STATUS_SUCCESSFUL`, `STATUS_FAILED` imported from `mongotq.task`. -/
inductive Status where
  | NEW
  | PENDING
  | SUCCESSFUL
  | FAILED
deriving DecidableEq, Repr

/-- One task document of the backing collection, with the fields the
lifecycle code reads and writes (`_id`, `assignedTo`, `status`,
`retries`, `priority`, `createdAt`, `modifiedAt`, `errorMessage`). -/
structure TaskDoc where
  id : Nat
  assignedTo : Option String
  status : Status
  retries : Nat
  priority : Int
  createdAt : Int
  modifiedAt : Option Int
  errorMessage : Option String
deriving DecidableEq, Repr

namespace TaskQueue

/-- Filter of `TaskQueue.next` (task_queue.py lines 269-271):
`{'assignedTo': None, 'status': STATUS_NEW, 'retries': {'$lt': max_retries}}`. -/
def nextFilter (max_retries : Nat) (d : TaskDoc) : Bool :=
  decide (d.assignedTo = none) && decide (d.status = Status.NEW)
    && decide (d.retries < max_retries)

/-- Update of `TaskQueue.next` (lines 272-274): `$set` of `assignedTo`
to the consumer tag, `modifiedAt` to now, `status` to `STATUS_PENDING`. -/
def nextUpdate (tag : String) (now : Int) (d : TaskDoc) : TaskDoc :=
  { d with assignedTo := some tag, modifiedAt := some now,
           status := Status.PENDING }

/-- The sort order used by `next` and `pop`:
`[('priority', DESCENDING), ('createdAt', ASCENDING)]`.  `betterDoc a b`
holds when `a` strictly precedes `b` in that order. -/
def betterDoc (a b : TaskDoc) : Bool :=
  decide (b.priority < a.priority)
    || (decide (a.priority = b.priority) && decide (a.createdAt < b.createdAt))

/-- First document of a list under the (priority descending, createdAt
ascending) sort: ties are resolved in favour of the earlier list element,
matching a stable sort of the collection. -/
def pickBest : List TaskDoc → Option TaskDoc
  | [] => none
  | d :: ds =>
      match pickBest ds with
      | none => some d
      | some e => if betterDoc e d then some e else some d

/-- Removes the first occurrence of a document from the collection
(the single-document deletion of `find_one_and_delete`). -/
def removeDoc (d : TaskDoc) : List TaskDoc → List TaskDoc
  | [] => []
  | x :: xs => if x = d then xs else x :: removeDoc d xs

/-- Replaces the first occurrence of a document (the single-document
update of `find_one_and_update`). -/
def replaceDoc (d d' : TaskDoc) : List TaskDoc → List TaskDoc
  | [] => []
  | x :: xs => if x = d then d' :: xs else x :: replaceDoc d d' xs

/-- `TaskQueue.next` (lines 261-279): `find_one_and_update` with
`nextFilter`, `nextUpdate` and the (priority desc, createdAt asc) sort,
returning the post-update document (`ReturnDocument.AFTER`) together
with the new collection state; `(none, store)` when nothing matches. -/
def next (tag : String) (max_retries : Nat) (now : Int)
    (store : List TaskDoc) : Option TaskDoc × List TaskDoc :=
  match pickBest (store.filter (nextFilter max_retries)) with
  | none => (none, store)
  | some d => (some (nextUpdate tag now d),
               replaceDoc d (nextUpdate tag now d) store)

/-- Filter of `TaskQueue._expire_tasks` (lines 119-121):
`{'assignedTo': {'$ne': None}, 'modifiedAt': {'$lt': cutoff},
'status': {'$eq': STATUS_PENDING}}`.  A `null` `modifiedAt` does not
match the numeric `$lt` (BSON type bracketing). -/
def expiryFilter (cutoff : Int) (d : TaskDoc) : Bool :=
  decide (d.assignedTo ≠ none)
    && (match d.modifiedAt with
        | some m => decide (m < cutoff)
        | none => false)
    && decide (d.status = Status.PENDING)

/-- Update of `_expire_tasks` (lines 122-125): `$set` of `assignedTo`
to null, `modifiedAt` to now, `status` to `STATUS_FAILED`, and
`$inc` of `retries` by 1. -/
def expiryUpdate (now : Int) (d : TaskDoc) : TaskDoc :=
  { d with assignedTo := none, modifiedAt := some now,
           status := Status.FAILED, retries := d.retries + 1 }

/-- `TaskQueue._expire_tasks` (lines 106-133): guarded by
`self.expires or force` where `expires` is `ttl != -1`; when the guard
holds, an `update_many` applies `expiryUpdate` to every document
matching `expiryFilter (now - ttl)` and leaves the rest unchanged. -/
def expire_tasks (ttl : Int) (force : Bool) (now : Int)
    (store : List TaskDoc) : List TaskDoc :=
  if ttl ≠ -1 ∨ force = true then
    store.map (fun d => if expiryFilter (now - ttl) d then expiryUpdate now d
                        else d)
  else store

/-- Filter of `TaskQueue._discard_tasks` (line 144):
`{'retries': {'$gte': max_retries}}` — the retries threshold alone,
with no condition on status and no use of `discard_strategy`. -/
def discardFilter (max_retries : Nat) (d : TaskDoc) : Bool :=
  decide (max_retries ≤ d.retries)

/-- `TaskQueue._discard_tasks` (lines 135-152): an unconditional
`delete_many` of every document whose `retries` has reached
`max_retries`.  The method never reads `self.discard_strategy`. -/
def discard_tasks (max_retries : Nat) (store : List TaskDoc) :
    List TaskDoc :=
  store.filter (fun d => ! discardFilter max_retries d)

/-- Modelled from the spec: the discard sweep as §4.6 describes it,
consulting the configured strategy — delete the over-threshold
documents under "remove", leave every document in place under "keep".
Stated only to compare against `discard_tasks`, which is the code. -/
def specDiscardSweep (strategy : String) (max_retries : Nat)
    (store : List TaskDoc) : List TaskDoc :=
  if strategy = "remove" then
    store.filter (fun d => ! discardFilter max_retries d)
  else store

/-- Filter of `NonPendingAssignedAnomaly` (anomalies.py lines 26-27):
`{'assignedTo': {'$ne': None}, 'status': {'$ne': STATUS_PENDING}}`. -/
def anomalyFilter (d : TaskDoc) : Bool :=
  decide (d.assignedTo ≠ none) && decide (d.status ≠ Status.PENDING)

/-- Update of `NonPendingAssignedAnomaly` (anomalies.py lines 28-31):
`$set` of `assignedTo` to null, `modifiedAt` to the sweep timestamp,
`status` to `STATUS_FAILED`, and `$inc` of `retries` by 1. -/
def anomalyUpdate (now : Int) (d : TaskDoc) : TaskDoc :=
  { d with assignedTo := none, modifiedAt := some now,
           status := Status.FAILED, retries := d.retries + 1 }

/-- `TaskQueue.resolve_anomalies` (lines 154-192): finds the documents
matching `anomalyFilter` and reports them; when `dry_run` is false it
additionally applies `anomalyUpdate` through `update_many` on the same
filter.  Returns (reported documents, resulting collection). -/
def resolve_anomalies (dry_run : Bool) (now : Int)
    (store : List TaskDoc) : List TaskDoc × List TaskDoc :=
  (store.filter anomalyFilter,
   if dry_run then store
   else store.map (fun d => if anomalyFilter d then anomalyUpdate now d
                            else d))

/-- `TaskQueue.pop` (lines 222-234): `find_one_and_delete` on the
filter `{'status': STATUS_SUCCESSFUL}` under the (priority desc,
createdAt asc) sort; `_wrap_task` turns a missing document into
`None` instead of raising. -/
def pop (store : List TaskDoc) : Option TaskDoc × List TaskDoc :=
  match pickBest (store.filter (fun d => decide (d.status = Status.SUCCESSFUL))) with
  | none => (none, store)
  | some d => (some d, removeDoc d store)

/-- `TaskQueue.on_success` (lines 397-407) composed with
`TaskQueue.update` (lines 242-259): clears `assignedTo`, stamps
`modifiedAt` with the current time, sets `status` to
`STATUS_SUCCESSFUL`, and writes the whole task back by `_id`. -/
def on_success (now : Int) (d : TaskDoc) : TaskDoc :=
  { d with assignedTo := none, modifiedAt := some now,
           status := Status.SUCCESSFUL }

/-- `TaskQueue.on_failure` (lines 409-422) composed with
`TaskQueue.update`: clears `assignedTo`, stamps `modifiedAt`, sets
`status` to `STATUS_FAILED`, records the error message, and increments
`retries` by 1 before writing the task back by `_id`. -/
def on_failure (now : Int) (msg : Option String) (d : TaskDoc) : TaskDoc :=
  { d with assignedTo := none, modifiedAt := some now,
           status := Status.FAILED, errorMessage := msg,
           retries := d.retries + 1 }

/-- `TaskQueue.on_retry` (lines 424-436): `find_one_and_update` keyed
on `{'_id': task.object_id_, 'assignedTo': assignment_tag}` with
`{'$set': {'assignedTo': None, 'modifiedAt': None},
'$inc': {'retries': 1}}`; a document not currently assigned to this
consumer matches nothing and is left unchanged.  `status` is not
touched. -/
def on_retry (tag : String) (d : TaskDoc) : TaskDoc :=
  if d.assignedTo = some tag then
    { d with assignedTo := none, modifiedAt := none,
             retries := d.retries + 1 }
  else d

/-- One lifecycle event on a single task document, for the retry
accounting of the spec's §8 "Non-decreasing retries" property: a
worker-reported failure, a hit of the lease-expiry sweep, or a
release-for-retry by the consumer holding `tag`. -/
inductive QEvent where
  | failure (now : Int) (msg : Option String)
  | expiry (ttl : Int) (force : Bool) (now : Int)
  | retryRelease (tag : String)
deriving Repr

/-- Effect of one lifecycle event on one document: `on_failure` writes
the incremented task back unconditionally; the expiry sweep rewrites
the document only when the guard and `expiryFilter` match; `on_retry`
rewrites it only when it is assigned to the releasing consumer. -/
def applyEvent (d : TaskDoc) : QEvent → TaskDoc
  | QEvent.failure now msg => on_failure now msg d
  | QEvent.expiry ttl force now =>
      if (ttl ≠ -1 ∨ force = true) ∧ expiryFilter (now - ttl) d = true then
        expiryUpdate now d
      else d
  | QEvent.retryRelease tag => on_retry tag d

/-- Folding a sequence of lifecycle events over one document. -/
def runEvents (d : TaskDoc) (es : List QEvent) : TaskDoc :=
  es.foldl applyEvent d

/-- A concrete unassigned FAILED document with `retries` below the
default `max_retries` of 3. -/
def exampleFailed : TaskDoc :=
  { id := 1, assignedTo := none, status := Status.FAILED, retries := 0,
    priority := 0, createdAt := 0, modifiedAt := some 0, errorMessage := none }

/-- A concrete freshly appended document: NEW, unassigned, no retries. -/
def exampleNew : TaskDoc :=
  { id := 2, assignedTo := none, status := Status.NEW, retries := 0,
    priority := 0, createdAt := 0, modifiedAt := some 0, errorMessage := none }

/-- A concrete PENDING document currently claimed by consumer `w`. -/
def examplePending : TaskDoc :=
  { id := 3, assignedTo := some "w", status := Status.PENDING, retries := 0,
    priority := 0, createdAt := 0, modifiedAt := some 5, errorMessage := none }

/-- A concrete completed (SUCCESSFUL) document. -/
def exampleSuccessful : TaskDoc :=
  { id := 4, assignedTo := none, status := Status.SUCCESSFUL, retries := 0,
    priority := 1, createdAt := 2, modifiedAt := some 3, errorMessage := none }

/-- A concrete anomalous document: assigned to a consumer while
SUCCESSFUL, the state §4.7's detector targets. -/
def exampleAnomalous : TaskDoc :=
  { id := 5, assignedTo := some "x", status := Status.SUCCESSFUL, retries := 0,
    priority := 0, createdAt := 0, modifiedAt := some 0, errorMessage := none }

end TaskQueue

end MongoTQ

namespace MongoTQ

namespace TaskQueue

/-- A document selected by `pickBest` belongs to the list it was
selected from. -/
theorem pickBest_mem {l : List TaskDoc} {d : TaskDoc}
    (h : pickBest l = some d) : d ∈ l := by
  induction l with
  | nil => simp [pickBest] at h
  | cons x xs ih =>
      cases hx : pickBest xs with
      | none =>
          simp [pickBest, hx] at h
          simp [h]
      | some e =>
          simp [pickBest, hx] at h
          by_cases hb : betterDoc e x = true
          · simp [hb] at h
            exact List.mem_cons_of_mem x (ih (by rw [hx, h]))
          · simp [hb] at h
            simp [h]

/-- Removing a document that satisfies `p` commutes with filtering
by `p`. -/
theorem filter_removeDoc (p : TaskDoc → Bool) (d : TaskDoc)
    (hp : p d = true) (l : List TaskDoc) :
    (removeDoc d l).filter p = removeDoc d (l.filter p) := by
  induction l with
  | nil => rfl
  | cons x xs ih =>
      by_cases hx : x = d
      · subst hx
        simp [removeDoc, List.filter_cons, hp]
      · by_cases hpx : p x = true
        · simp [removeDoc, hx, List.filter_cons, hpx, ih]
        · simp [removeDoc, hx, List.filter_cons, hpx, ih]

/-- C1: the claim's eligible state — unassigned, retryable, FAILED — is
not claimable: `exampleFailed` has `assignedTo = null`, `retries = 0 < 3`
and `status = FAILED`, yet `next` does not match it and returns nothing
on a collection holding only this document. -/
theorem failed_retryable_not_claimable_cex :
    exampleFailed.assignedTo = none ∧ exampleFailed.retries < 3 ∧
    exampleFailed.status = Status.FAILED ∧
    nextFilter 3 exampleFailed = false ∧
    next "w" 3 10 [exampleFailed] = (none, [exampleFailed]) := by
  decide

/-- C1 (amended): `next` treats a document as eligible exactly when
`assignedTo = null`, `status = NEW` and `retries < max_retries`; in
particular a FAILED document is never eligible — there is no unified
NEW/FAILED claimable predicate and no re-queue step. -/
theorem next_claimable_iff_new (max_retries : Nat) (d : TaskDoc) :
    (nextFilter max_retries d = true ↔
      d.assignedTo = none ∧ d.status = Status.NEW ∧
        d.retries < max_retries) ∧
    (d.status = Status.FAILED → nextFilter max_retries d = false) := by
  constructor
  · simp [nextFilter, and_assoc]
  · intro hf
    simp [nextFilter, hf]

/-- C1 witness: the characterization applied to the concrete FAILED
document. -/
theorem next_claimable_iff_new_witness :
    nextFilter 3 exampleFailed = false :=
  (next_claimable_iff_new 3 exampleFailed).2 (by decide)

/-- C3: whenever `next` returns a task, that task's `retries` is
strictly below `max_retries`: the claim operation never yields a
document that has reached the retry threshold. -/
theorem next_never_returns_exhausted (tag : String) (max_retries : Nat)
    (now : Int) (store : List TaskDoc) (t : TaskDoc) (s' : List TaskDoc)
    (h : next tag max_retries now store = (some t, s')) :
    t.retries < max_retries := by
  unfold next at h
  cases hp : pickBest (store.filter (nextFilter max_retries)) with
  | none => rw [hp] at h; simp at h
  | some d =>
      rw [hp] at h
      simp at h
      have hd : d ∈ store.filter (nextFilter max_retries) := pickBest_mem hp
      have hf : nextFilter max_retries d = true := (List.mem_filter.mp hd).2
      have hr : d.retries < max_retries := by
        simp [nextFilter] at hf
        tauto
      have ht : t = nextUpdate tag now d := h.1.symm
      rw [ht]
      exact hr

/-- C3 witness: `next` on a one-document collection returns the claimed
document, whose `retries` is below the threshold. -/
theorem next_never_returns_exhausted_witness :
    (nextUpdate "w" 5 exampleNew).retries < 3 :=
  next_never_returns_exhausted "w" 3 5 [exampleNew]
    (nextUpdate "w" 5 exampleNew) [nextUpdate "w" 5 exampleNew] (by decide)

/-- C2: `_discard_tasks` deletes a document at the retry threshold even
though the queue's configured strategy is "keep" — the method never
reads `discard_strategy`, so the code's own default (`keep` retains
discarded tasks) is violated; `specDiscardSweep`, which follows the
spec's and the constructor docstring's words, retains the document. -/
theorem discard_ignores_keep_strategy :
    ({ exampleFailed with retries := 3 } : TaskDoc).status = Status.FAILED ∧
    discard_tasks 3 [{ exampleFailed with retries := 3 }] = [] ∧
    specDiscardSweep "keep" 3 [{ exampleFailed with retries := 3 }] =
      [{ exampleFailed with retries := 3 }] := by
  decide

/-- C4: `_expire_tasks` is the identity when `ttl = -1` and `force` is
false; otherwise it rewrites exactly the documents matching the expiry
filter — assigned, numerically stamped before `now - ttl`, PENDING —
to unassigned FAILED documents stamped `now` with `retries` incremented
by exactly 1, leaving every other document unchanged. -/
theorem expire_tasks_spec (ttl : Int) (force : Bool) (now : Int)
    (store : List TaskDoc) :
    (ttl = -1 → force = false → expire_tasks ttl force now store = store) ∧
    (ttl ≠ -1 ∨ force = true →
      expire_tasks ttl force now store =
        store.map (fun d => if expiryFilter (now - ttl) d then
          expiryUpdate now d else d)) ∧
    (∀ d : TaskDoc, expiryFilter (now - ttl) d = true ↔
      (d.assignedTo ≠ none ∧
        (∃ m : Int, d.modifiedAt = some m ∧ m < now - ttl) ∧
        d.status = Status.PENDING)) ∧
    (∀ d : TaskDoc,
      (expiryUpdate now d).assignedTo = none ∧
      (expiryUpdate now d).status = Status.FAILED ∧
      (expiryUpdate now d).modifiedAt = some now ∧
      (expiryUpdate now d).retries = d.retries + 1) := by
  refine ⟨?_, ?_, ?_, ?_⟩
  · intro h1 h2
    simp [expire_tasks, h1, h2]
  · intro h
    simp only [expire_tasks, if_pos h]
  · intro d
    cases hm : d.modifiedAt with
    | none => simp [expiryFilter, hm]
    | some m => simp [expiryFilter, hm, and_assoc]
  · intro d
    simp [expiryUpdate]

/-- C4 witness: a permanent queue (`ttl = -1`) without `force` leaves a
claimed, stale document untouched; the same document under `ttl = 3`
at time 10 matches the filter and is rewritten to an unassigned FAILED
document with one more retry. -/
theorem expire_tasks_spec_witness :
    expire_tasks (-1) false 10 [examplePending] = [examplePending] ∧
    (expiryFilter (10 - 3) examplePending = true ↔
      (examplePending.assignedTo ≠ none ∧
        (∃ m : Int, examplePending.modifiedAt = some m ∧ m < 10 - 3) ∧
        examplePending.status = Status.PENDING)) ∧
    (expiryUpdate 10 examplePending).retries = examplePending.retries + 1 :=
  ⟨(expire_tasks_spec (-1) false 10 [examplePending]).1 rfl rfl,
   (expire_tasks_spec 3 false 10 [examplePending]).2.2.1 examplePending,
   ((expire_tasks_spec 3 false 10 [examplePending]).2.2.2
      examplePending).2.2.2⟩

/-- C5: a release event applied to a document whose `assignedTo` is
already null (the lease was lost) matches nothing and leaves `retries`
at 0 rather than increasing it by exactly 1, refuting the claim that
each failure/expiry/release event increments `retries` by exactly 1. -/
theorem release_event_zero_increment_cex :
    (runEvents exampleFailed [QEvent.retryRelease "w"]).retries ≠
      exampleFailed.retries + 1 ∧
    runEvents exampleFailed [QEvent.retryRelease "w"] = exampleFailed := by
  decide

/-- C5 (amended): over any sequence of failure, expiry and release
events, a document's `retries` never decreases; each single event
either leaves the document entirely unchanged (its filter matched
nothing, as for a lost-lease release or a non-expired document) or
increments `retries` by exactly 1. -/
theorem retries_step_monotone :
    (∀ (d : TaskDoc) (e : QEvent),
      applyEvent d e = d ∨ (applyEvent d e).retries = d.retries + 1) ∧
    (∀ (es : List QEvent) (d : TaskDoc),
      d.retries ≤ (runEvents d es).retries) := by
  have hstep : ∀ (d : TaskDoc) (e : QEvent),
      applyEvent d e = d ∨ (applyEvent d e).retries = d.retries + 1 := by
    intro d e
    cases e with
    | failure now msg => right; simp [applyEvent, on_failure]
    | expiry ttl force now =>
        by_cases h : (ttl ≠ -1 ∨ force = true) ∧
            expiryFilter (now - ttl) d = true
        · right; simp [applyEvent, h, expiryUpdate]
        · left; simp [applyEvent, h]
    | retryRelease tag =>
        by_cases h : d.assignedTo = some tag
        · right; simp [on_retry, applyEvent, h]
        · left; simp [on_retry, applyEvent, h]
  refine ⟨hstep, ?_⟩
  intro es
  induction es with
  | nil => intro d; simp [runEvents]
  | cons e es ih =>
      intro d
      have h1 : d.retries ≤ (applyEvent d e).retries := by
        cases hstep d e with
        | inl h => rw [h]
        | inr h => omega
      calc d.retries ≤ (applyEvent d e).retries := h1
        _ ≤ (runEvents (applyEvent d e) es).retries := ih (applyEvent d e)
        _ = (runEvents d (e :: es)).retries := by simp [runEvents]

/-- C6: `on_retry` does not stamp `modifiedAt` with the current time:
releasing the concretely claimed PENDING document sets `modifiedAt` to
null (its previous stamp was `5`), while `retries` is incremented —
refuting "all three transitions stamp `modifiedAt`". -/
theorem on_retry_unstamps_modifiedAt_cex :
    examplePending.modifiedAt = some 5 ∧
    (on_retry "w" examplePending).modifiedAt = none ∧
    (on_retry "w" examplePending).retries = examplePending.retries + 1 := by
  decide

/-- C6 (amended): `on_success` and `on_failure` stamp `modifiedAt` with
the current time, `on_failure` and a matching `on_retry` increment
`retries` by exactly 1, but `on_retry` sets `modifiedAt` to null rather
than the current time, and an `on_retry` by a consumer that does not
hold the task changes nothing. -/
theorem lifecycle_stamp_spec (now : Int) (msg : Option String)
    (tag : String) (d : TaskDoc) :
    (on_success now d).modifiedAt = some now ∧
    (on_failure now msg d).modifiedAt = some now ∧
    (on_failure now msg d).retries = d.retries + 1 ∧
    (on_failure now msg d).errorMessage = msg ∧
    (d.assignedTo = some tag →
      (on_retry tag d).modifiedAt = none ∧
      (on_retry tag d).retries = d.retries + 1) ∧
    (d.assignedTo ≠ some tag → on_retry tag d = d) := by
  refine ⟨rfl, rfl, rfl, rfl, ?_, ?_⟩
  · intro h
    simp [on_retry, h]
  · intro h
    simp [on_retry, h]

/-- C6 witness: the stamps at a concrete time on the concretely claimed
document. -/
theorem lifecycle_stamp_spec_witness :
    (on_success 9 examplePending).modifiedAt = some 9 ∧
    (on_retry "w" examplePending).modifiedAt = none ∧
    (on_retry "w" examplePending).retries = examplePending.retries + 1 :=
  ⟨(lifecycle_stamp_spec 9 none "w" examplePending).1,
   ((lifecycle_stamp_spec 9 none "w" examplePending).2.2.2.2.1 rfl).1,
   ((lifecycle_stamp_spec 9 none "w" examplePending).2.2.2.2.1 rfl).2⟩

/-- C7: with `max_retries = 1`, claiming the concrete NEW document and
then releasing it with `on_retry` yields a reachable document that is
still PENDING with `retries = 1`; the discard sweep deletes it, so the
sweep does delete a PENDING document. -/
theorem discard_deletes_pending_cex :
    next "w" 1 10 [exampleNew] =
      (some (nextUpdate "w" 10 exampleNew), [nextUpdate "w" 10 exampleNew]) ∧
    (on_retry "w" (nextUpdate "w" 10 exampleNew)).status = Status.PENDING ∧
    (on_retry "w" (nextUpdate "w" 10 exampleNew)).retries = 1 ∧
    discard_tasks 1 [on_retry "w" (nextUpdate "w" 10 exampleNew)] = [] := by
  decide

/-- C7 (amended): the discard sweep selects on the retries threshold
alone, regardless of status: a document survives `_discard_tasks`
exactly when its `retries` is below `max_retries`; consequently a
PENDING document that reached the threshold (reachable via claim then
release, which leaves status PENDING) is deleted. -/
theorem discard_depends_only_on_retries (max_retries : Nat)
    (store : List TaskDoc) (d : TaskDoc) :
    d ∈ discard_tasks max_retries store ↔
      d ∈ store ∧ d.retries < max_retries := by
  simp [discard_tasks, discardFilter, List.mem_filter, Nat.not_le]

/-- C8: with `dry_run = true` the anomaly pass reports every stored
document matching the anomaly filter and changes nothing; with
`dry_run = false` it additionally rewrites exactly the matching
documents — assigned yet not PENDING — clearing `assignedTo`, setting
`status = FAILED`, incrementing `retries` by exactly 1 and stamping
`modifiedAt`, leaving non-matching documents unchanged. -/
theorem resolve_anomalies_spec (now : Int) (store : List TaskDoc) :
    (∀ d : TaskDoc, d ∈ store → anomalyFilter d = true →
      d ∈ (resolve_anomalies true now store).1) ∧
    (resolve_anomalies true now store).2 = store ∧
    (resolve_anomalies false now store).2 =
      store.map (fun d => if anomalyFilter d then anomalyUpdate now d
                          else d) ∧
    (∀ d : TaskDoc, anomalyFilter d = true ↔
      (d.assignedTo ≠ none ∧ d.status ≠ Status.PENDING)) ∧
    (∀ d : TaskDoc,
      (anomalyUpdate now d).assignedTo = none ∧
      (anomalyUpdate now d).status = Status.FAILED ∧
      (anomalyUpdate now d).retries = d.retries + 1 ∧
      (anomalyUpdate now d).modifiedAt = some now) := by
  refine ⟨?_, rfl, rfl, ?_, ?_⟩
  · intro d hd hf
    simp only [resolve_anomalies, List.mem_filter]
    exact ⟨hd, hf⟩
  · intro d
    simp [anomalyFilter]
  · intro d
    simp [anomalyUpdate]

/-- C8 witness: the manually tampered document — assigned while
SUCCESSFUL — is reported by a dry run that changes nothing, and the
corrective update increments its `retries` by exactly 1. -/
theorem resolve_anomalies_spec_witness :
    exampleAnomalous ∈ (resolve_anomalies true 7 [exampleAnomalous]).1 ∧
    (resolve_anomalies true 7 [exampleAnomalous]).2 = [exampleAnomalous] ∧
    (anomalyUpdate 7 exampleAnomalous).retries =
      exampleAnomalous.retries + 1 :=
  ⟨(resolve_anomalies_spec 7 [exampleAnomalous]).1 exampleAnomalous
      (by decide) (by decide),
   (resolve_anomalies_spec 7 [exampleAnomalous]).2.1,
   ((resolve_anomalies_spec 7 [exampleAnomalous]).2.2.2.2
      exampleAnomalous).2.2.1⟩

/-- C9: `pop` on a collection with no SUCCESSFUL document returns none
and changes nothing; when the SUCCESSFUL documents are exactly one, a
single `pop` returns that document and removes it and a second `pop`
returns none; and any document `pop` returns (hence removes) is
SUCCESSFUL. -/
theorem pop_spec (store : List TaskDoc) :
    ((∀ d ∈ store, d.status ≠ Status.SUCCESSFUL) →
      pop store = (none, store)) ∧
    (∀ d : TaskDoc,
      store.filter (fun x => decide (x.status = Status.SUCCESSFUL)) = [d] →
      pop store = (some d, removeDoc d store) ∧
      pop (removeDoc d store) = (none, removeDoc d store)) ∧
    (∀ (t : TaskDoc) (s' : List TaskDoc), pop store = (some t, s') →
      t.status = Status.SUCCESSFUL) := by
  refine ⟨?_, ?_, ?_⟩
  · intro h
    have hf : store.filter
        (fun d => decide (d.status = Status.SUCCESSFUL)) = [] := by
      rw [List.filter_eq_nil_iff]
      intro a ha
      simpa using h a ha
    simp [pop, hf, pickBest]
  · intro d hd
    have hmem : d ∈ store.filter
        (fun x => decide (x.status = Status.SUCCESSFUL)) := by
      rw [hd]; exact List.mem_singleton.mpr rfl
    have hpd : decide (d.status = Status.SUCCESSFUL) = true :=
      (List.mem_filter.mp hmem).2
    constructor
    · simp [pop, hd, pickBest]
    · have hrem : (removeDoc d store).filter
          (fun x => decide (x.status = Status.SUCCESSFUL)) = [] := by
        rw [filter_removeDoc _ _ hpd, hd]
        simp [removeDoc]
      simp [pop, hrem, pickBest]
  · intro t s' h
    unfold pop at h
    cases hp : pickBest (store.filter
        (fun d => decide (d.status = Status.SUCCESSFUL))) with
    | none => rw [hp] at h; simp at h
    | some d =>
        rw [hp] at h
        simp at h
        have hd := pickBest_mem hp
        have hsd : decide (d.status = Status.SUCCESSFUL) = true :=
          (List.mem_filter.mp hd).2
        have ht : d = t := h.1
        rw [← ht]
        simpa using hsd

/-- C9 witness: on the one-document SUCCESSFUL collection, the first
`pop` returns and removes the document and the second returns none. -/
theorem pop_spec_witness :
    pop [exampleSuccessful] =
      (some exampleSuccessful, removeDoc exampleSuccessful [exampleSuccessful]) ∧
    pop (removeDoc exampleSuccessful [exampleSuccessful]) =
      (none, removeDoc exampleSuccessful [exampleSuccessful]) :=
  (pop_spec [exampleSuccessful]).2.1 exampleSuccessful (by decide)

/-- C10: after a matching `on_retry` on a PENDING claimed document, the
document is PENDING and unassigned, and matches neither the claim
filter of `next` (which requires NEW), nor the expiry filter (which
requires an assignee), nor the anomaly filter (likewise): no queue
operation can claim, expire or heal it again. -/
theorem released_task_invisible (tag : String) (max_retries : Nat)
    (cutoff : Int) (d : TaskDoc)
    (h1 : d.status = Status.PENDING) (h2 : d.assignedTo = some tag) :
    (on_retry tag d).status = Status.PENDING ∧
    (on_retry tag d).assignedTo = none ∧
    nextFilter max_retries (on_retry tag d) = false ∧
    expiryFilter cutoff (on_retry tag d) = false ∧
    anomalyFilter (on_retry tag d) = false := by
  simp [on_retry, h2, nextFilter, expiryFilter, anomalyFilter, h1]

/-- C10 witness: the invisibility of the concretely released document. -/
theorem released_task_invisible_witness :
    (on_retry "w" examplePending).status = Status.PENDING ∧
    (on_retry "w" examplePending).assignedTo = none ∧
    nextFilter 3 (on_retry "w" examplePending) = false ∧
    expiryFilter 100 (on_retry "w" examplePending) = false ∧
    anomalyFilter (on_retry "w" examplePending) = false :=
  released_task_invisible "w" 3 100 examplePending rfl rfl

end TaskQueue

end MongoTQ
